import Mathlib

/-!
Verification development for the legacy context propagation engine
(`ReactFiberContext`).  The engine threads an inherited "environment"
object down a fiber tree: two LIFO registers hold the current merged
context object and a did-change flag, a single `previousContext` slot
holds the parent context while a provider is mid-publish, and each
class instance memoizes unmasked/masked/merged context objects.

JavaScript objects are modelled with explicit reference identity: every
object carries a numeric `id`, and fresh allocations (object literals in
the source) draw ids from an allocation counter in the engine state.
Reference equality (`===`) is id equality; `undefined` is `JSVal.undef`.
-/

/-- A JavaScript value stored under a context key. `undef` is JS `undefined`. -/
inductive JSVal where
  | undef
  | str (s : String)
  deriving DecidableEq, Repr

/-- A JavaScript object: a reference identity `id` plus its own enumerable
fields in insertion order.  Two objects are reference-identical (`===`)
exactly when their `id`s are equal; fresh object literals receive a fresh id. -/
structure JSObject where
  id : Nat
  fields : List (String × JSVal)
  deriving DecidableEq, Repr

/-- First binding of key `k` in an association list (JS property lookup order). -/
def lookupKey (k : String) : List (String × JSVal) → Option JSVal
  | [] => none
  | kv :: rest => if kv.1 = k then some kv.2 else lookupKey k rest

/-- JS property read `o[k]`: the bound value, or `undefined` when absent. -/
def JSObject.get (o : JSObject) (k : String) : JSVal :=
  (lookupKey k o.fields).getD JSVal.undef

/-- The shared canonical `emptyObject` from `fbjs/lib/emptyObject`: a single
reference-stable empty object.  We reserve id 0 for it; the allocation
counter for fresh objects starts at 1. -/
def emptyObject : JSObject := ⟨0, []⟩

/-- Fiber work tags used by the engine (`shared/ReactTypeOfWork`).
`HostComponent` stands for every tag other than the two the engine
inspects. -/
inductive TypeOfWork where
  | ClassComponent
  | HostRoot
  | HostComponent
  deriving DecidableEq, Repr

/-- The part of `fiber.type` the engine reads: the declared consumes shape
(`contextTypes`), the declared provides shape (`childContextTypes`) — `none`
models JS `null`/`undefined`, `some keys` a shape object whose own keys are
`keys` — and the component display name read by `getComponentName`. -/
structure FiberType where
  contextTypes : Option (List String) := none
  childContextTypes : Option (List String) := none
  displayName : Option String := none
  deriving DecidableEq, Repr

/-- The mutable per-node instance (`fiber.stateNode`).  `getChildContext`
models the optional zero-argument contribution callback: `some c` means the
callable exists and returns the object `c`; `none` means no such method.
`context` is the field read on a host root's state node. -/
structure ReactInstance where
  memoizedUnmaskedChildContext : Option JSObject := none
  memoizedMaskedChildContext : Option JSObject := none
  memoizedMergedChildContext : Option JSObject := none
  getChildContext : Option JSObject := none
  context : JSObject := emptyObject
  deriving DecidableEq, Repr

instance : Inhabited ReactInstance := ⟨{}⟩

/-- Per-fiber data: the work tag, the `type` fields, the state node (an
instance id, `none` for JS `null`), and whether `isFiberMounted` holds.
`mounted` is modelled from the spec: `isFiberMounted` lives in
`react-reconciler/reflection`, which is not part of this repository's core
source; the spec only requires "currently part of the live tree". -/
structure FiberData where
  tag : TypeOfWork
  typ : FiberType := {}
  stateNode : Option Nat := none
  mounted : Bool := true
  deriving DecidableEq, Repr

/-- A fiber together with its `return` (parent) chain: `root d` is a fiber
whose `return` pointer is `null`, `child d parent` one whose `return` is
`parent`. -/
inductive Fiber where
  | root (data : FiberData)
  | child (data : FiberData) (parent : Fiber)
  deriving DecidableEq, Repr

def Fiber.data : Fiber → FiberData
  | .root d => d
  | .child d _ => d

def Fiber.tag (f : Fiber) : TypeOfWork := f.data.tag

def Fiber.typ (f : Fiber) : FiberType := f.data.typ

def Fiber.stateNode (f : Fiber) : Option Nat := f.data.stateNode

def Fiber.mounted (f : Fiber) : Bool := f.data.mounted

/-- `fiber.return`: `none` models JS `null`. -/
def Fiber.ret : Fiber → Option Fiber
  | .root _ => none
  | .child _ p => some p

/-- `getComponentName(fiber)` (from `shared/getComponentName`, not under the
core source): the component's display name when available. -/
def getComponentName (fiber : Fiber) : Option String := fiber.typ.displayName

/-- `getComponentName(fiber) || 'Unknown'` as used in the engine's messages. -/
def componentNameOrUnknown (fiber : Fiber) : String :=
  (getComponentName fiber).getD "Unknown"

/-- Modelled from the spec: a frame of the abstract LIFO stack register
(`ReactFiberStack`'s cursor primitive is not under the core source).  A frame
pairs the pushed value with its owner's work tag; frames nest in push order. -/
structure StackFrame (α : Type) where
  value : α
  ownerTag : TypeOfWork
  deriving DecidableEq, Repr

/-- Modelled from the spec: `push(cursor, value, fiber)` appends a frame. -/
def cursorPush {α : Type} (st : List (StackFrame α)) (value : α)
    (owner : TypeOfWork) : List (StackFrame α) :=
  ⟨value, owner⟩ :: st

/-- Modelled from the spec: `pop(cursor, fiber)` removes the top frame (true
LIFO; the fiber argument is for consistency assertions only, not addressing).
Popping an empty register leaves it empty. -/
def cursorPop {α : Type} (st : List (StackFrame α)) : List (StackFrame α) :=
  st.tail

/-- Modelled from the spec: `cursor.current` reads the top frame's value, or
the cursor's creation default when the register is empty. -/
def cursorCurrent {α : Type} (st : List (StackFrame α)) (dflt : α) : α :=
  match st with
  | [] => dflt
  | fr :: _ => fr.value

/-- The engine's mutable state: the two stack registers (created with
defaults `emptyObject` and `false`), the module-level `previousContext`
slot, the store of instances addressed by id, the allocation counter for
fresh object ids, and a ghost counter of `instance.getChildContext()`
invocations (used to state that an operation performs no recomputation). -/
structure EngineState where
  contextStackCursor : List (StackFrame JSObject) := []
  didPerformWorkStackCursor : List (StackFrame Bool) := []
  previousContext : JSObject := emptyObject
  instances : List (Nat × ReactInstance) := []
  nextId : Nat := 1
  getChildContextCalls : Nat := 0
  deriving DecidableEq, Repr

instance : Inhabited EngineState := ⟨{}⟩

/-- Read the instance with id `i` (instances present in concrete runs). -/
def getInst (m : List (Nat × ReactInstance)) (i : Nat) : ReactInstance :=
  match m with
  | [] => default
  | (j, inst) :: rest => if j = i then inst else getInst rest i

/-- Replace (or insert) the instance with id `i`. -/
def setInst (m : List (Nat × ReactInstance)) (i : Nat) (inst : ReactInstance) :
    List (Nat × ReactInstance) :=
  match m with
  | [] => [(i, inst)]
  | (j, old) :: rest =>
    if j = i then (j, inst) :: rest else (j, old) :: setInst rest i inst

/-- `contextStackCursor.current` (default `emptyObject`). -/
def currentContext (s : EngineState) : JSObject :=
  cursorCurrent s.contextStackCursor emptyObject

/-- `didPerformWorkStackCursor.current` (default `false`). -/
def currentDidChange (s : EngineState) : Bool :=
  cursorCurrent s.didPerformWorkStackCursor false

/-- `isContextProvider` on fiber data:
`fiber.tag === ClassComponent && fiber.type.childContextTypes != null`. -/
def FiberData.isProvider (d : FiberData) : Bool :=
  if d.tag = TypeOfWork.ClassComponent then d.typ.childContextTypes.isSome
  else false

/-- `isContextProvider(fiber)`. -/
def isContextProvider (fiber : Fiber) : Bool :=
  FiberData.isProvider fiber.data

/-- `isContextConsumer(fiber)`:
`fiber.tag === ClassComponent && fiber.type.contextTypes != null`. -/
def isContextConsumer (fiber : Fiber) : Bool :=
  if fiber.tag = TypeOfWork.ClassComponent then fiber.typ.contextTypes.isSome
  else false

/-- `getUnmaskedContext(workInProgress)`: a provider reads the saved
`previousContext` (it must not see its own still-pending contribution);
any other fiber reads the register's current value. -/
def getUnmaskedContext (s : EngineState) (workInProgress : Fiber) : JSObject :=
  if isContextProvider workInProgress then s.previousContext
  else currentContext s

/-- `cacheContext(workInProgress, unmaskedContext, maskedContext)`: stores
both memoized fields on the instance.  The source reads
`workInProgress.stateNode` without a null check; it is only ever called
when an instance exists (the `none` branch is never reached from
`getMaskedContext`). -/
def cacheContext (s : EngineState) (workInProgress : Fiber)
    (unmaskedContext maskedContext : JSObject) : EngineState :=
  match workInProgress.stateNode with
  | none => s
  | some i =>
    let inst := getInst s.instances i
    let cached := { inst with
      memoizedUnmaskedChildContext := some unmaskedContext,
      memoizedMaskedChildContext := some maskedContext }
    { s with instances := setInst s.instances i cached }

/-- `getMaskedContext(workInProgress, unmaskedContext)`.  Returns the shared
`emptyObject` when no consumes shape is declared; returns the cached masked
object when the instance's memoized unmasked context is reference-identical
(`===`, id equality) to `unmaskedContext`; otherwise allocates a fresh
object holding exactly the declared keys copied from `unmaskedContext`
(absent keys become `undefined`) and caches the pair when an instance
exists.  `cacheContext` always writes both memoized fields together, so on
a cache hit the masked field is present; the `getD emptyObject` default is
unreachable. -/
def getMaskedContext (s : EngineState) (workInProgress : Fiber)
    (unmaskedContext : JSObject) : EngineState × JSObject :=
  match workInProgress.typ.contextTypes with
  | none => (s, emptyObject)
  | some contextTypes =>
    let cacheHit :=
      match workInProgress.stateNode with
      | some i =>
        match (getInst s.instances i).memoizedUnmaskedChildContext with
        | some cached => decide (cached.id = unmaskedContext.id)
        | none => false
      | none => false
    if cacheHit then
      match workInProgress.stateNode with
      | some i =>
        (s, ((getInst s.instances i).memoizedMaskedChildContext).getD emptyObject)
      | none => (s, emptyObject)
    else
      let context : JSObject :=
        ⟨s.nextId, contextTypes.map (fun key => (key, unmaskedContext.get key))⟩
      let s1 := { s with nextId := s.nextId + 1 }
      match workInProgress.stateNode with
      | some _ => (cacheContext s1 workInProgress unmaskedContext context, context)
      | none => (s1, context)

/-- `hasContextChanged()`: the did-change register's current flag. -/
def hasContextChanged (s : EngineState) : Bool :=
  currentDidChange s

/-- `popContextProvider(fiber)`: no-op unless the fiber is a provider;
otherwise pops the did-change register, then the context register. -/
def popContextProvider (s : EngineState) (fiber : Fiber) : EngineState :=
  if isContextProvider fiber then
    { s with
      didPerformWorkStackCursor := cursorPop s.didPerformWorkStackCursor,
      contextStackCursor := cursorPop s.contextStackCursor }
  else s

/-- `popTopLevelContextObject(fiber)`: pops both registers unconditionally. -/
def popTopLevelContextObject (s : EngineState) (_fiber : Fiber) : EngineState :=
  { s with
    didPerformWorkStackCursor := cursorPop s.didPerformWorkStackCursor,
    contextStackCursor := cursorPop s.contextStackCursor }

/-- Is a root-owned frame live on a register? -/
def hasRootFrame (st : List (StackFrame JSObject)) : Bool :=
  st.any (fun fr => decide (fr.ownerTag = TypeOfWork.HostRoot))

/-- The invariant message of `pushTopLevelContextObject`. -/
def unexpectedContextMsg : String :=
  "Unexpected context found on stack. " ++
  "This error is likely caused by a bug in React. Please file an issue."

/-- `pushTopLevelContextObject(fiber, context, didChange)`.  The guard is
modelled from the spec: the source checks `contextStackCursor.cursor == null`,
a field of the stack-cursor primitive that is not part of this repository's
core source; per the spec the call fails fatally exactly when a root frame
is already live on the context register (a previous traversal's root frame
was never cleared).  Otherwise it pushes one frame onto each register. -/
def pushTopLevelContextObject (s : EngineState) (fiber : Fiber)
    (context : JSObject) (didChange : Bool) : Except String EngineState :=
  if hasRootFrame s.contextStackCursor then
    Except.error unexpectedContextMsg
  else
    let s1 := { s with
      contextStackCursor := cursorPush s.contextStackCursor context fiber.tag }
    Except.ok { s1 with
      didPerformWorkStackCursor :=
        cursorPush s1.didPerformWorkStackCursor didChange fiber.tag }

/-- Shallow merge `{...parentContext, ...childContext}` on field lists: the
parent's keys in order with the child's value where the child also binds the
key, followed by the child's keys not bound by the parent. -/
def mergeFields (parent child : List (String × JSVal)) : List (String × JSVal) :=
  parent.map (fun kv => (kv.1, (lookupKey kv.1 child).getD kv.2))
    ++ child.filter (fun kv => (lookupKey kv.1 parent).isNone)

/-- The invariant message of `processChildContext` for a contribution key
outside the declared provides shape, naming the component and the key. -/
def badKeyMsg (fiber : Fiber) (key : String) : String :=
  componentNameOrUnknown fiber ++ ".getChildContext(): key \"" ++ key ++
    "\" is not defined in childContextTypes."

/-- `processChildContext(fiber, parentContext)`.  Reading `getChildContext`
off a `null` state node is a JS `TypeError` (fatal).  When the instance has
no `getChildContext` callable, the parent context passes through unchanged
(a dev-only warning, never fatal).  Otherwise the callback is invoked (the
ghost call counter is bumped), every returned key must be declared in
`childContextTypes` — the first offending key aborts with an invariant
naming the component and the key (a `null` `childContextTypes` would fail
on the same keys, with a `TypeError` instead of this invariant) — and the
result is a freshly allocated shallow merge of parent and child contexts. -/
def processChildContext (s : EngineState) (fiber : Fiber)
    (parentContext : JSObject) : Except String (EngineState × JSObject) :=
  match fiber.stateNode with
  | none => Except.error "TypeError: Cannot read property getChildContext of null"
  | some i =>
    let inst := getInst s.instances i
    let childContextTypes := fiber.typ.childContextTypes.getD []
    match inst.getChildContext with
    | none => Except.ok (s, parentContext)
    | some childContext =>
      let s1 := { s with getChildContextCalls := s.getChildContextCalls + 1 }
      match childContext.fields.find?
          (fun kv => !(childContextTypes.contains kv.1)) with
      | some kv => Except.error (badKeyMsg fiber kv.1)
      | none =>
        Except.ok ({ s1 with nextId := s1.nextId + 1 },
          ⟨s1.nextId, mergeFields parentContext.fields childContext.fields⟩)

/-- The invariant message of `invalidateContextProvider` for a missing
instance. -/
def missingInstanceMsg : String :=
  "Expected to have an instance by this point. " ++
  "This error is likely caused by a bug in React. Please file an issue."

/-- `pushContextProvider(workInProgress)`: returns `false` and does nothing
for a non-provider.  For a provider: reads the instance's remembered merged
child context (or `emptyObject` when the instance or the field is absent),
saves the register's current value into `previousContext`, pushes the
remembered merged context onto the context register and the *inherited*
current did-change flag onto the did-change register, and returns `true`. -/
def pushContextProvider (s : EngineState) (workInProgress : Fiber) :
    EngineState × Bool :=
  if isContextProvider workInProgress then
    let memoizedMergedChildContext :=
      match workInProgress.stateNode with
      | some i => ((getInst s.instances i).memoizedMergedChildContext).getD emptyObject
      | none => emptyObject
    let s1 := { s with previousContext := currentContext s }
    let s2 := { s1 with
      contextStackCursor :=
        cursorPush s1.contextStackCursor memoizedMergedChildContext
          workInProgress.tag }
    let s3 := { s2 with
      didPerformWorkStackCursor :=
        cursorPush s2.didPerformWorkStackCursor (currentDidChange s2)
          workInProgress.tag }
    (s3, true)
  else (s, false)

/-- `invalidateContextProvider(workInProgress, didChange)`.  Fails fatally
when the state node is `null`.  When `didChange` is true: recomputes the
merged context from `previousContext` via `processChildContext`, stores it
as the instance's remembered merged child context, pops both registers and
pushes the new merged context with a `true` flag.  When `didChange` is
false: pops only the did-change register and pushes `false` back. -/
def invalidateContextProvider (s : EngineState) (workInProgress : Fiber)
    (didChange : Bool) : Except String EngineState :=
  match workInProgress.stateNode with
  | none => Except.error missingInstanceMsg
  | some i =>
    if didChange then
      match processChildContext s workInProgress s.previousContext with
      | Except.error e => Except.error e
      | Except.ok (s1, mergedContext) =>
        let inst := getInst s1.instances i
        let inst2 := { inst with memoizedMergedChildContext := some mergedContext }
        let s2 := { s1 with instances := setInst s1.instances i inst2 }
        let s3 := { s2 with
          didPerformWorkStackCursor := cursorPop s2.didPerformWorkStackCursor }
        let s4 := { s3 with
          contextStackCursor := cursorPop s3.contextStackCursor }
        let s5 := { s4 with
          contextStackCursor :=
            cursorPush s4.contextStackCursor mergedContext workInProgress.tag }
        Except.ok { s5 with
          didPerformWorkStackCursor :=
            cursorPush s5.didPerformWorkStackCursor didChange
              workInProgress.tag }
    else
      let s1 := { s with
        didPerformWorkStackCursor := cursorPop s.didPerformWorkStackCursor }
      Except.ok { s1 with
        didPerformWorkStackCursor :=
          cursorPush s1.didPerformWorkStackCursor didChange
            workInProgress.tag }

/-- The detached-subtree invariant message of `findCurrentUnmaskedContext`. -/
def detachedMsg : String :=
  "Found unexpected detached subtree parent. " ++
  "This error is likely caused by a bug in React. Please file an issue."

/-- One step of `findCurrentUnmaskedContext`'s walk: `some r` when the walk
stops at this node (host root: the state node's `context`; provider: the
state node's remembered merged child context, `none` inside `ok` modelling
JS `undefined`; a `null` state node in either case is a JS `TypeError`);
`none` when the walk must continue to the parent. -/
def visitNode (s : EngineState) (d : FiberData) :
    Option (Except String (Option JSObject)) :=
  if d.tag = TypeOfWork.HostRoot then
    some (match d.stateNode with
      | some i => Except.ok (some ((getInst s.instances i).context))
      | none => Except.error "TypeError: Cannot read property context of null")
  else if FiberData.isProvider d then
    some (match d.stateNode with
      | some i => Except.ok ((getInst s.instances i).memoizedMergedChildContext)
      | none =>
        Except.error
          "TypeError: Cannot read property memoizedMergedChildContext of null")
  else none

/-- The `while (node.tag !== HostRoot)` walk of `findCurrentUnmaskedContext`:
stop at a host root or at the first provider; a `null` parent before a host
root is the detached-subtree invariant (fatal). -/
def findLoop (s : EngineState) : Fiber → Except String (Option JSObject)
  | Fiber.root d => (visitNode s d).getD (Except.error detachedMsg)
  | Fiber.child d parent =>
    match visitNode s d with
    | some r => r
    | none => findLoop s parent

/-- The invariant message of `findCurrentUnmaskedContext` for a fiber that
is not a mounted class component. -/
def notMountedClassMsg : String :=
  "Expected subtree parent to be a mounted class component. " ++
  "This error is likely caused by a bug in React. Please file an issue."

/-- `findCurrentUnmaskedContext(fiber)`: fails fatally unless the fiber is
mounted (modelled from the spec, `isFiberMounted` is not under the core
source) and a class component; then walks the parent chain. -/
def findCurrentUnmaskedContext (s : EngineState) (fiber : Fiber) :
    Except String (Option JSObject) :=
  if fiber.mounted && decide (fiber.tag = TypeOfWork.ClassComponent) then
    findLoop s fiber
  else Except.error notMountedClassMsg

/-! ## Derived vocabulary for the claims -/

/-- A register-touching engine operation other than
`invalidateContextProvider` with `didChange = true` (the root push is taken
with `didChange = false`; see `stepOp`). -/
inductive CtxOp where
  | pushProvider (p : Fiber)
  | invalidateFalse (p : Fiber)
  | popProvider (p : Fiber)
  | popTopLevel (p : Fiber)
  | pushTopLevel (p : Fiber) (c : JSObject)

/-- Run one operation.  Both fallible operations raise their invariant
before touching any register, so an aborted call leaves the registers
unchanged; the aborting traversal is modelled as keeping the prior state. -/
def stepOp (s : EngineState) : CtxOp → EngineState
  | CtxOp.pushProvider p => (pushContextProvider s p).1
  | CtxOp.invalidateFalse p =>
    match invalidateContextProvider s p false with
    | Except.ok s' => s'
    | Except.error _ => s
  | CtxOp.popProvider p => popContextProvider s p
  | CtxOp.popTopLevel p => popTopLevelContextObject s p
  | CtxOp.pushTopLevel p c =>
    match pushTopLevelContextObject s p c false with
    | Except.ok s' => s'
    | Except.error _ => s

/-- Run a sequence of operations, left to right. -/
def runOps (s : EngineState) : List CtxOp → EngineState
  | [] => s
  | op :: ops => runOps (stepOp s op) ops

/-- Every live frame's did-change flag is `false`. -/
def allFlagsFalse (l : List (StackFrame Bool)) : Bool :=
  l.all (fun fr => !fr.value)

/-- Build a parent chain: the fibers of `ds` (head first, i.e. deepest) are
stacked above the terminal fiber `t`. -/
def buildChain : List FiberData → Fiber → Fiber
  | [], t => t
  | d :: ds, t => Fiber.child d (buildChain ds t)

/-! ## Concrete inputs for the witnesses -/

/-- A provider instance whose contribution is `{color: "red"}`. -/
def wProviderInst : ReactInstance :=
  { getChildContext := some ⟨5, [("color", JSVal.str "red")]⟩ }

/-- A state with one frame on each register and one provider instance. -/
def wState : EngineState :=
  { instances := [(1, wProviderInst)]
    nextId := 10
    contextStackCursor := [⟨⟨7, [("a", JSVal.str "x")]⟩, TypeOfWork.HostRoot⟩]
    didPerformWorkStackCursor := [⟨false, TypeOfWork.HostRoot⟩] }

/-- A provider fiber (class component with `childContextTypes`) owning
instance 1. -/
def wProvider : Fiber := Fiber.root
  { tag := TypeOfWork.ClassComponent
    typ := { childContextTypes := some ["color"] }
    stateNode := some 1 }

/-- The state after push-then-invalidate(true) of `wProvider` on `wState`. -/
def wAfterInvalidate : EngineState :=
  match invalidateContextProvider (pushContextProvider wState wProvider).1
      wProvider true with
  | Except.ok s => s
  | Except.error _ => wState

/-- The state after invalidate(false) of `wProvider` on `wState`. -/
def wAfterInvalidateFalse : EngineState :=
  match invalidateContextProvider wState wProvider false with
  | Except.ok s => s
  | Except.error _ => wState

/-- A consumer fiber with declared `contextTypes` but a null instance. -/
def wConsumerNoInst : Fiber := Fiber.root
  { tag := TypeOfWork.ClassComponent
    typ := { contextTypes := some ["color"] }
    stateNode := none }

/-- A consumer fiber with declared `contextTypes` owning instance 1. -/
def wConsumer : Fiber := Fiber.root
  { tag := TypeOfWork.ClassComponent
    typ := { contextTypes := some ["color"] }
    stateNode := some 1 }

/-- An unmasked environment object. -/
def wEnv : JSObject := ⟨7, [("color", JSVal.str "blue")]⟩

/-- A parent context binding `color` and `y`. -/
def wParentCtx : JSObject := ⟨9, [("color", JSVal.str "green"), ("y", JSVal.str "2")]⟩

/-- An instance whose contribution `{colour: ...}` uses an undeclared key. -/
def wBadInst : ReactInstance :=
  { getChildContext := some ⟨5, [("colour", JSVal.str "red")]⟩ }

/-- A state holding `wBadInst` as instance 2. -/
def wBadState : EngineState := { instances := [(2, wBadInst)] }

/-- A provider fiber named `MessageList` owning the bad instance 2. -/
def wBadProvider : Fiber := Fiber.root
  { tag := TypeOfWork.ClassComponent
    typ := { childContextTypes := some ["color"], displayName := some "MessageList" }
    stateNode := some 2 }

/-- Fiber data of a consumer (deepest node of the witness chains). -/
def wConsumerData : FiberData :=
  { tag := TypeOfWork.ClassComponent
    typ := { contextTypes := some ["color"] } }

/-- Fiber data of a transparent host node. -/
def wHostData : FiberData := { tag := TypeOfWork.HostComponent }

/-- Fiber data of a provider owning instance 1. -/
def wProviderData : FiberData :=
  { tag := TypeOfWork.ClassComponent
    typ := { childContextTypes := some ["color"] }
    stateNode := some 1 }

/-- Fiber data of a host root owning instance 3. -/
def wRootData : FiberData := { tag := TypeOfWork.HostRoot, stateNode := some 3 }

/-- A state for the ancestor-walk witnesses: instance 1 is a provider with a
remembered merged context, instance 3 a root state node. -/
def wTreeState : EngineState :=
  { instances :=
      [(1, { memoizedMergedChildContext := some ⟨20, [("color", JSVal.str "purple")]⟩ }),
       (3, { context := ⟨22, []⟩ })] }

/-- A sample operation sequence containing no invalidate-with-true. -/
def wOps : List CtxOp :=
  [CtxOp.pushProvider wProvider, CtxOp.invalidateFalse wProvider,
    CtxOp.popProvider wProvider,
    CtxOp.pushTopLevel (Fiber.root wRootData) ⟨30, []⟩,
    CtxOp.popTopLevel (Fiber.root wRootData)]

/-! ## General lemmas -/

theorem getInst_setInst (m : List (Nat × ReactInstance)) (i : Nat)
    (inst : ReactInstance) : getInst (setInst m i inst) i = inst := by
  induction m with
  | nil => simp [setInst, getInst]
  | cons hd tl ih =>
    by_cases h : hd.1 = i
    · simp [setInst, getInst, h]
    · simp [setInst, getInst, h, ih]

theorem processChildContext_preserves_stacks (s : EngineState) (fiber : Fiber)
    (pc : JSObject) (s' : EngineState) (c : JSObject)
    (h : processChildContext s fiber pc = Except.ok (s', c)) :
    s'.contextStackCursor = s.contextStackCursor ∧
    s'.didPerformWorkStackCursor = s.didPerformWorkStackCursor := by
  cases hsn : fiber.stateNode with
  | none => simp [processChildContext, hsn] at h
  | some i =>
    cases hcc : (getInst s.instances i).getChildContext with
    | none =>
      simp [processChildContext, hsn, hcc] at h
      obtain ⟨h1, h2⟩ := h
      subst h1
      exact ⟨rfl, rfl⟩
    | some cc =>
      simp only [processChildContext, hsn, hcc] at h
      split at h
      · simp at h
      · simp only [Except.ok.injEq, Prod.mk.injEq] at h
        obtain ⟨h1, h2⟩ := h
        subst h1
        exact ⟨rfl, rfl⟩

theorem pushContextProvider_snd_eq (s : EngineState) (p : Fiber) :
    (pushContextProvider s p).2 = isContextProvider p := by
  unfold pushContextProvider
  by_cases hp : isContextProvider p = true
  · rw [if_pos hp, hp]
  · rw [if_neg hp]
    simp only [Bool.not_eq_true] at hp
    rw [hp]

theorem pushContextProvider_of_provider (s : EngineState) (p : Fiber)
    (hp : isContextProvider p = true) :
    ∃ v, pushContextProvider s p =
      ({ s with
         previousContext := currentContext s,
         contextStackCursor := cursorPush s.contextStackCursor v p.tag,
         didPerformWorkStackCursor :=
           cursorPush s.didPerformWorkStackCursor (currentDidChange s) p.tag },
       true) := by
  unfold pushContextProvider
  rw [if_pos hp]
  exact ⟨_, rfl⟩

/-! ## Claims -/

/-- C1: for every provider fiber `p` and every prior state of the two
registers, `pushContextProvider p`, then `invalidateContextProvider p true`,
then `popContextProvider p` leaves both the context register and the
did-change register at exactly the depth and content they had before the
push. -/
theorem push_invalidate_pop_roundTrip (s0 : EngineState) (p : Fiber)
    (s2 : EngineState)
    (hp : isContextProvider p = true)
    (hinv : invalidateContextProvider (pushContextProvider s0 p).1 p true =
      Except.ok s2) :
    (popContextProvider s2 p).contextStackCursor = s0.contextStackCursor ∧
    (popContextProvider s2 p).didPerformWorkStackCursor =
      s0.didPerformWorkStackCursor := by
  obtain ⟨v, hpush⟩ := pushContextProvider_of_provider s0 p hp
  rw [hpush] at hinv
  cases hsn : p.stateNode with
  | none => simp [invalidateContextProvider, hsn] at hinv
  | some i =>
    set s1 : EngineState :=
      { s0 with
        previousContext := currentContext s0,
        contextStackCursor := cursorPush s0.contextStackCursor v p.tag,
        didPerformWorkStackCursor :=
          cursorPush s0.didPerformWorkStackCursor (currentDidChange s0) p.tag }
      with hs1
    cases hpc : processChildContext s1 p s1.previousContext with
    | error e => simp [invalidateContextProvider, hsn, hpc] at hinv
    | ok pr =>
      obtain ⟨sA, m⟩ := pr
      obtain ⟨hctx, hdid⟩ :=
        processChildContext_preserves_stacks s1 p s1.previousContext sA m hpc
      simp only [invalidateContextProvider, hsn, hpc, if_true] at hinv
      simp only [Except.ok.injEq] at hinv
      subst hinv
      unfold popContextProvider
      rw [if_pos hp]
      refine ⟨?_, ?_⟩ <;>
        simp [cursorPush, cursorPop, hctx, hdid, hs1]

/-- C2: after `pushContextProvider p` returns `true`, `getUnmaskedContext p`
returns the object that was the context register's current value immediately
before the push — the provider never observes its own pushed contribution. -/
theorem getUnmaskedContext_after_push (s : EngineState) (p : Fiber)
    (h : (pushContextProvider s p).2 = true) :
    getUnmaskedContext (pushContextProvider s p).1 p = currentContext s := by
  have hp : isContextProvider p = true := by
    rw [← pushContextProvider_snd_eq s p]; exact h
  obtain ⟨v, hpush⟩ := pushContextProvider_of_provider s p hp
  rw [hpush]
  unfold getUnmaskedContext
  rw [if_pos hp]

/-- Witness for C1: the round trip at a concrete provider and state. -/
theorem push_invalidate_pop_roundTrip_witness :
    isContextProvider wProvider = true ∧
    invalidateContextProvider (pushContextProvider wState wProvider).1
        wProvider true = Except.ok wAfterInvalidate ∧
    ((popContextProvider wAfterInvalidate wProvider).contextStackCursor =
        wState.contextStackCursor ∧
      (popContextProvider wAfterInvalidate wProvider).didPerformWorkStackCursor =
        wState.didPerformWorkStackCursor) :=
  ⟨rfl, rfl,
    push_invalidate_pop_roundTrip wState wProvider wAfterInvalidate rfl rfl⟩

/-- Witness for C2: the self-exclusion law at a concrete provider. -/
theorem getUnmaskedContext_after_push_witness :
    (pushContextProvider wState wProvider).2 = true ∧
    getUnmaskedContext (pushContextProvider wState wProvider).1 wProvider =
      currentContext wState :=
  ⟨rfl, getUnmaskedContext_after_push wState wProvider rfl⟩

/-- C3 (counterexample to the claim as stated): for a node that declares
`contextTypes` but has a null instance, two successive `getMaskedContext`
calls with the reference-identical unmasked object return two *distinct*
masked objects. -/
theorem getMaskedContext_not_memoized_counterexample :
    ¬ ((getMaskedContext (getMaskedContext wState wConsumerNoInst wEnv).1
          wConsumerNoInst wEnv).2 =
        (getMaskedContext wState wConsumerNoInst wEnv).2) := by
  decide

/-- C3 (amended): for every node that declares no consumes shape or has a
non-null instance, calling `getMaskedContext` twice in succession with the
reference-identical unmasked object returns the reference-identical masked
object both times. -/
theorem getMaskedContext_memoized (s : EngineState) (f : Fiber) (E : JSObject)
    (h : f.typ.contextTypes = none ∨ ∃ i, f.stateNode = some i) :
    (getMaskedContext (getMaskedContext s f E).1 f E).2 =
      (getMaskedContext s f E).2 := by
  cases hct : f.typ.contextTypes with
  | none => simp [getMaskedContext, hct]
  | some cts =>
    obtain hnone | ⟨i, hsn⟩ := h
    · rw [hct] at hnone; cases hnone
    · cases hmu : (getInst s.instances i).memoizedUnmaskedChildContext with
      | some cached =>
        by_cases hid : cached.id = E.id
        · simp [getMaskedContext, hct, hsn, hmu, hid]
        · simp [getMaskedContext, hct, hsn, hmu, hid, cacheContext,
            getInst_setInst]
      | none =>
        simp [getMaskedContext, hct, hsn, hmu, cacheContext, getInst_setInst]

/-- Witness for C3 (amended): the memoization law at a concrete consumer
with an instance. -/
theorem getMaskedContext_memoized_witness :
    (wConsumer.typ.contextTypes = none ∨ ∃ i, wConsumer.stateNode = some i) ∧
    (getMaskedContext (getMaskedContext wState wConsumer wEnv).1 wConsumer
        wEnv).2 = (getMaskedContext wState wConsumer wEnv).2 :=
  ⟨Or.inr ⟨1, rfl⟩,
    getMaskedContext_memoized wState wConsumer wEnv (Or.inr ⟨1, rfl⟩)⟩

/-- C10: for every node that declares `contextTypes` but whose state node is
null, `getMaskedContext` allocates a fresh masked object on every call and
writes nothing to any cache: two consecutive calls with the
reference-identical unmasked object return two distinct masked objects. -/
theorem getMaskedContext_no_instance_fresh (s : EngineState) (f : Fiber)
    (E : JSObject) (cts : List String)
    (hct : f.typ.contextTypes = some cts) (hsn : f.stateNode = none) :
    (getMaskedContext s f E).2.id = s.nextId ∧
    (getMaskedContext (getMaskedContext s f E).1 f E).2.id = s.nextId + 1 ∧
    (getMaskedContext s f E).2 ≠
      (getMaskedContext (getMaskedContext s f E).1 f E).2 ∧
    (getMaskedContext s f E).1 = { s with nextId := s.nextId + 1 } ∧
    (getMaskedContext (getMaskedContext s f E).1 f E).1 =
      { s with nextId := s.nextId + 2 } := by
  refine ⟨?_, ?_, ?_, ?_, ?_⟩ <;>
    simp [getMaskedContext, hct, hsn, JSObject.mk.injEq]

/-- Witness for C10 at a concrete instance-less consumer. -/
theorem getMaskedContext_no_instance_fresh_witness :
    wConsumerNoInst.typ.contextTypes = some ["color"] ∧
    wConsumerNoInst.stateNode = none ∧
    ((getMaskedContext wState wConsumerNoInst wEnv).2.id = wState.nextId ∧
      (getMaskedContext (getMaskedContext wState wConsumerNoInst wEnv).1
          wConsumerNoInst wEnv).2.id = wState.nextId + 1 ∧
      (getMaskedContext wState wConsumerNoInst wEnv).2 ≠
        (getMaskedContext (getMaskedContext wState wConsumerNoInst wEnv).1
          wConsumerNoInst wEnv).2 ∧
      (getMaskedContext wState wConsumerNoInst wEnv).1 =
        { wState with nextId := wState.nextId + 1 } ∧
      (getMaskedContext (getMaskedContext wState wConsumerNoInst wEnv).1
          wConsumerNoInst wEnv).1 =
        { wState with nextId := wState.nextId + 2 }) :=
  ⟨rfl, rfl,
    getMaskedContext_no_instance_fresh wState wConsumerNoInst wEnv ["color"]
      rfl rfl⟩

/-! ## Association-list lemmas for the shallow merge -/

theorem lookupKey_append (k : String) (xs ys : List (String × JSVal)) :
    lookupKey k (xs ++ ys) =
      match lookupKey k xs with
      | some v => some v
      | none => lookupKey k ys := by
  induction xs with
  | nil => simp [lookupKey]
  | cons hd tl ih =>
    by_cases h : hd.1 = k
    · simp [lookupKey, h]
    · simp [lookupKey, h, ih]

theorem lookupKey_map_merge (k : String) (p c : List (String × JSVal)) :
    lookupKey k (p.map (fun kv => (kv.1, (lookupKey kv.1 c).getD kv.2))) =
      (lookupKey k p).map (fun v => (lookupKey k c).getD v) := by
  induction p with
  | nil => simp [lookupKey]
  | cons hd tl ih =>
    by_cases h : hd.1 = k
    · simp [lookupKey, h]
    · simp [lookupKey, h, ih]

theorem lookupKey_filter_not_in (k : String) (p c : List (String × JSVal))
    (hk : lookupKey k p = none) :
    lookupKey k (c.filter (fun kv => (lookupKey kv.1 p).isNone)) =
      lookupKey k c := by
  induction c with
  | nil => simp
  | cons hd tl ih =>
    by_cases h : hd.1 = k
    · have hp : (lookupKey hd.1 p).isNone = true := by rw [h, hk]; rfl
      rw [List.filter_cons, if_pos hp]
      simp [lookupKey, h]
    · by_cases hpred : (lookupKey hd.1 p).isNone
      · simp [List.filter_cons, hpred, lookupKey, h, ih]
      · simp [List.filter_cons, hpred, lookupKey, h, ih]

theorem lookupKey_mergeFields (k : String) (p c : List (String × JSVal)) :
    lookupKey k (mergeFields p c) =
      match lookupKey k c with
      | some w => some w
      | none => lookupKey k p := by
  unfold mergeFields
  rw [lookupKey_append, lookupKey_map_merge]
  cases hp : lookupKey k p with
  | none =>
    rw [lookupKey_filter_not_in k p c hp]
    cases hc : lookupKey k c <;> simp
  | some v =>
    cases hc : lookupKey k c <;> simp

theorem get_mergeFields (n : Nat) (p c : JSObject) (k : String) :
    (JSObject.mk n (mergeFields p.fields c.fields)).get k =
      if (lookupKey k c.fields).isSome then c.get k else p.get k := by
  unfold JSObject.get
  simp only
  rw [lookupKey_mergeFields]
  cases hc : lookupKey k c.fields <;> simp [hc]

/-- C4: for a provider fiber with an instance whose `getChildContext`
callable returns only keys declared in `childContextTypes`,
`processChildContext` returns a fresh shallow merge of the parent context
with the contribution, the node's own keys winning on conflict; when the
instance exposes no `getChildContext` callable, the parent context passes
through unchanged and no fatal error is raised. -/
theorem processChildContext_merge_spec (s : EngineState) (f : Fiber)
    (pc : JSObject) (i : Nat) (cts : List String)
    (hsn : f.stateNode = some i)
    (hctt : f.typ.childContextTypes = some cts) :
    (∀ cc, (getInst s.instances i).getChildContext = some cc →
      (∀ kv ∈ cc.fields, kv.1 ∈ cts) →
      processChildContext s f pc =
        Except.ok ({ s with nextId := s.nextId + 1, getChildContextCalls := s.getChildContextCalls + 1 },
          ⟨s.nextId, mergeFields pc.fields cc.fields⟩) ∧
      ∀ k, (JSObject.mk s.nextId (mergeFields pc.fields cc.fields)).get k =
        if (lookupKey k cc.fields).isSome then cc.get k else pc.get k) ∧
    ((getInst s.instances i).getChildContext = none →
      processChildContext s f pc = Except.ok (s, pc)) := by
  constructor
  · intro cc hcc hkeys
    have hfind : cc.fields.find?
        (fun kv => !((f.typ.childContextTypes.getD []).contains kv.1)) = none := by
      rw [hctt]
      simp only [Option.getD_some, List.find?_eq_none]
      intro kv hkv
      simp [hkeys kv hkv]
    refine ⟨?_, fun k => get_mergeFields s.nextId pc cc k⟩
    simp only [processChildContext, hsn, hcc]
    rw [hfind]
  · intro hcc
    simp [processChildContext, hsn, hcc]

/-- Witness for C4: a concrete provider merging `{color: red}` over
`{color: green, y: "2"}`. -/
theorem processChildContext_merge_spec_witness :
    wProvider.stateNode = some 1 ∧
    wProvider.typ.childContextTypes = some ["color"] ∧
    ((getInst wState.instances 1).getChildContext =
        some ⟨5, [("color", JSVal.str "red")]⟩ ∧
      processChildContext wState wProvider wParentCtx =
        Except.ok ({ wState with nextId := wState.nextId + 1, getChildContextCalls := wState.getChildContextCalls + 1 },
          ⟨wState.nextId, mergeFields wParentCtx.fields [("color", JSVal.str "red")]⟩) ∧
      ∀ k, (JSObject.mk wState.nextId
          (mergeFields wParentCtx.fields [("color", JSVal.str "red")])).get k =
        if (lookupKey k [("color", JSVal.str "red")]).isSome then
          (JSObject.mk 5 [("color", JSVal.str "red")]).get k
        else wParentCtx.get k) :=
  ⟨rfl, rfl, rfl,
    (processChildContext_merge_spec wState wProvider wParentCtx 1 ["color"]
        rfl rfl).1 ⟨5, [("color", JSVal.str "red")]⟩ rfl (by decide)⟩

/-- C9: when the contribution callback returns a key outside the declared
provides shape, `processChildContext` fails fatally with a message naming
the component and the first offending key; when every returned key is
declared, this check raises no fatal error. -/
theorem processChildContext_key_check (s : EngineState) (f : Fiber)
    (pc : JSObject) (i : Nat) (cc : JSObject)
    (hsn : f.stateNode = some i)
    (hcc : (getInst s.instances i).getChildContext = some cc) :
    (∀ kv, cc.fields.find?
        (fun kv => !((f.typ.childContextTypes.getD []).contains kv.1)) =
          some kv →
      processChildContext s f pc = Except.error (badKeyMsg f kv.1)) ∧
    ((∀ kv ∈ cc.fields, kv.1 ∈ f.typ.childContextTypes.getD []) →
      ∃ out, processChildContext s f pc = Except.ok out) := by
  constructor
  · intro kv hkv
    simp only [processChildContext, hsn, hcc]
    rw [hkv]
  · intro hkeys
    have hfind : cc.fields.find?
        (fun kv => !((f.typ.childContextTypes.getD []).contains kv.1)) = none := by
      simp only [List.find?_eq_none]
      intro kv hkv
      simp [hkeys kv hkv]
    refine ⟨({ s with nextId := s.nextId + 1, getChildContextCalls := s.getChildContextCalls + 1 },
      ⟨s.nextId, mergeFields pc.fields cc.fields⟩), ?_⟩
    simp only [processChildContext, hsn, hcc]
    rw [hfind]

/-- Witness for C9: the `MessageList` provider contributing the undeclared
key `colour` fails with the exact message; `wProvider`, whose contribution's
keys are all declared, succeeds. -/
theorem processChildContext_key_check_witness :
    wBadProvider.stateNode = some 2 ∧
    (getInst wBadState.instances 2).getChildContext =
      some ⟨5, [("colour", JSVal.str "red")]⟩ ∧
    processChildContext wBadState wBadProvider emptyObject =
      Except.error (badKeyMsg wBadProvider "colour") ∧
    ∃ out, processChildContext wState wProvider emptyObject = Except.ok out :=
  ⟨rfl, rfl,
    (processChildContext_key_check wBadState wBadProvider emptyObject 2
        ⟨5, [("colour", JSVal.str "red")]⟩ rfl rfl).1
      ("colour", JSVal.str "red") (by decide),
    (processChildContext_key_check wState wProvider emptyObject 1
        ⟨5, [("color", JSVal.str "red")]⟩ rfl rfl).2 (by decide)⟩

/-- C5: for a provider with an instance, `invalidateContextProvider(p, false)`
pops and re-pushes only the did-change register (pushing `false`), leaves
the context register, the instance store (including the remembered merged
environment), the allocation counter and the contribution-call counter
untouched — and repeating the call returns the same state again. -/
theorem invalidateContextProvider_false_spec (s : EngineState) (p : Fiber)
    (i : Nat) (_hp : isContextProvider p = true) (hsn : p.stateNode = some i) :
    ∃ s', invalidateContextProvider s p false = Except.ok s' ∧
      s'.contextStackCursor = s.contextStackCursor ∧
      s'.didPerformWorkStackCursor =
        cursorPush (cursorPop s.didPerformWorkStackCursor) false p.tag ∧
      s'.instances = s.instances ∧
      s'.getChildContextCalls = s.getChildContextCalls ∧
      s'.nextId = s.nextId ∧
      s'.previousContext = s.previousContext ∧
      invalidateContextProvider s' p false = Except.ok s' := by
  refine ⟨{ s with didPerformWorkStackCursor := cursorPush (cursorPop s.didPerformWorkStackCursor) false p.tag },
    ?_, rfl, rfl, rfl, rfl, rfl, rfl, ?_⟩
  · simp [invalidateContextProvider, hsn]
  · simp [invalidateContextProvider, hsn, cursorPush, cursorPop]

/-- Witness for C5 at a concrete provider and state. -/
theorem invalidateContextProvider_false_spec_witness :
    isContextProvider wProvider = true ∧
    wProvider.stateNode = some 1 ∧
    ∃ s', invalidateContextProvider wState wProvider false = Except.ok s' ∧
      s'.contextStackCursor = wState.contextStackCursor ∧
      s'.didPerformWorkStackCursor =
        cursorPush (cursorPop wState.didPerformWorkStackCursor) false
          wProvider.tag ∧
      s'.instances = wState.instances ∧
      s'.getChildContextCalls = wState.getChildContextCalls ∧
      s'.nextId = wState.nextId ∧
      s'.previousContext = wState.previousContext ∧
      invalidateContextProvider s' wProvider false = Except.ok s' :=
  ⟨rfl, rfl, invalidateContextProvider_false_spec wState wProvider 1 rfl rfl⟩

/-! ## Did-change flag discipline (helpers for C6) -/

theorem allFlagsFalse_tail (l : List (StackFrame Bool))
    (h : allFlagsFalse l = true) : allFlagsFalse l.tail = true := by
  cases l with
  | nil => rfl
  | cons fr t => simp [allFlagsFalse] at h ⊢; exact h.2

theorem allFlagsFalse_push_false (l : List (StackFrame Bool)) (t : TypeOfWork)
    (h : allFlagsFalse l = true) :
    allFlagsFalse (cursorPush l false t) = true := by
  simp [allFlagsFalse, cursorPush] at h ⊢; exact h

theorem currentDidChange_of_allFalse (s : EngineState)
    (h : allFlagsFalse s.didPerformWorkStackCursor = true) :
    currentDidChange s = false := by
  unfold currentDidChange cursorCurrent
  cases hl : s.didPerformWorkStackCursor with
  | nil => rfl
  | cons fr t =>
    rw [hl] at h
    simp [allFlagsFalse] at h
    exact h.1

theorem stepOp_preserves_allFalse (s : EngineState) (op : CtxOp)
    (h : allFlagsFalse s.didPerformWorkStackCursor = true) :
    allFlagsFalse (stepOp s op).didPerformWorkStackCursor = true := by
  cases op with
  | pushProvider p =>
    by_cases hp : isContextProvider p = true
    · obtain ⟨v, hpush⟩ := pushContextProvider_of_provider s p hp
      rw [stepOp, hpush]
      rw [currentDidChange_of_allFalse s h]
      exact allFlagsFalse_push_false _ _ h
    · simp [stepOp, pushContextProvider, hp]
      exact h
  | invalidateFalse p =>
    cases hsn : p.stateNode with
    | none => simp [stepOp, invalidateContextProvider, hsn]; exact h
    | some i =>
      simp [stepOp, invalidateContextProvider, hsn]
      exact allFlagsFalse_push_false _ _ (allFlagsFalse_tail _ h)
  | popProvider p =>
    by_cases hp : isContextProvider p = true
    · simp [stepOp, popContextProvider, hp, cursorPop]
      exact allFlagsFalse_tail _ h
    · simp [stepOp, popContextProvider, hp]
      exact h
  | popTopLevel p =>
    simp [stepOp, popTopLevelContextObject, cursorPop]
    exact allFlagsFalse_tail _ h
  | pushTopLevel p c =>
    by_cases hr : hasRootFrame s.contextStackCursor = true
    · simp [stepOp, pushTopLevelContextObject, hr]
      exact h
    · simp only [Bool.not_eq_true] at hr
      simp [stepOp, pushTopLevelContextObject, hr]
      exact allFlagsFalse_push_false _ _ h

theorem runOps_preserves_allFalse (s : EngineState) (ops : List CtxOp)
    (h : allFlagsFalse s.didPerformWorkStackCursor = true) :
    allFlagsFalse (runOps s ops).didPerformWorkStackCursor = true := by
  induction ops generalizing s with
  | nil => exact h
  | cons op ops ih => exact ih _ (stepOp_preserves_allFalse s op h)

/-- C6: a provider's pushed did-change flag is the parent frame's current
flag at push time (not a fresh `false`); `hasContextChanged` always reads
the top frame's flag (the cursor default `false` when no frame is live);
and across any sequence of register operations other than
`invalidateContextProvider` with `didChange = true`, no live frame's flag
becomes `true` when all flags were `false` before. -/
theorem didChange_flag_discipline (s : EngineState) (p : Fiber)
    (ops : List CtxOp) :
    (isContextProvider p = true →
      (pushContextProvider s p).1.didPerformWorkStackCursor =
        cursorPush s.didPerformWorkStackCursor (currentDidChange s) p.tag) ∧
    hasContextChanged s = cursorCurrent s.didPerformWorkStackCursor false ∧
    (allFlagsFalse s.didPerformWorkStackCursor = true →
      allFlagsFalse (runOps s ops).didPerformWorkStackCursor = true) := by
  refine ⟨?_, rfl, fun h => runOps_preserves_allFalse s ops h⟩
  intro hp
  obtain ⟨v, hpush⟩ := pushContextProvider_of_provider s p hp
  rw [hpush]

/-- Witness for C6 at a concrete provider, state, and operation list. -/
theorem didChange_flag_discipline_witness :
    (isContextProvider wProvider = true ∧
      (pushContextProvider wState wProvider).1.didPerformWorkStackCursor =
        cursorPush wState.didPerformWorkStackCursor (currentDidChange wState)
          wProvider.tag) ∧
    hasContextChanged wState =
      cursorCurrent wState.didPerformWorkStackCursor false ∧
    (allFlagsFalse wState.didPerformWorkStackCursor = true ∧
      allFlagsFalse (runOps wState wOps).didPerformWorkStackCursor = true) :=
  ⟨⟨rfl, (didChange_flag_discipline wState wProvider wOps).1 rfl⟩,
    (didChange_flag_discipline wState wProvider wOps).2.1,
    ⟨rfl, (didChange_flag_discipline wState wProvider wOps).2.2 rfl⟩⟩

/-! ## Ancestor walk (helpers for C7) -/

theorem visitNode_transparent (s : EngineState) (d : FiberData)
    (h1 : d.tag ≠ TypeOfWork.HostRoot) (h2 : FiberData.isProvider d = false) :
    visitNode s d = none := by
  simp [visitNode, h1, h2]

theorem findLoop_buildChain (s : EngineState) (ds : List FiberData) (t : Fiber)
    (hds : ∀ d ∈ ds,
      d.tag ≠ TypeOfWork.HostRoot ∧ FiberData.isProvider d = false) :
    findLoop s (buildChain ds t) = findLoop s t := by
  induction ds with
  | nil => rfl
  | cons d ds ih =>
    have hd := hds d (List.mem_cons_self d ds)
    have hv := visitNode_transparent s d hd.1 hd.2
    have hrest := ih (fun e he => hds e (List.mem_cons_of_mem d he))
    simp [buildChain, findLoop, hv, hrest]

/-- C7: for every mounted class-component fiber whose walk to the terminal
node crosses only transparent nodes, `findCurrentUnmaskedContext` returns
the *nearest* provider's remembered merged context (for any fibers above the
provider); with no provider before a host root, the root state node's stored
context; and a null parent before any host root is the fatal
detached-subtree invariant. -/
theorem findCurrentUnmaskedContext_spec (s : EngineState) (d : FiberData)
    (ds : List FiberData)
    (hm : d.mounted = true) (htag : d.tag = TypeOfWork.ClassComponent)
    (hdp : FiberData.isProvider d = false)
    (hds : ∀ e ∈ ds,
      e.tag ≠ TypeOfWork.HostRoot ∧ FiberData.isProvider e = false) :
    (∀ (pd : FiberData) (pf : Fiber) (i : Nat),
      FiberData.isProvider pd = true → pd.stateNode = some i →
      findCurrentUnmaskedContext s
          (buildChain (d :: ds) (Fiber.child pd pf)) =
        Except.ok ((getInst s.instances i).memoizedMergedChildContext)) ∧
    (∀ (j : Nat) (rd : FiberData), rd.tag = TypeOfWork.HostRoot →
      rd.stateNode = some j →
      findCurrentUnmaskedContext s (buildChain (d :: ds) (Fiber.root rd)) =
        Except.ok (some ((getInst s.instances j).context))) ∧
    (∀ ld : FiberData, ld.tag ≠ TypeOfWork.HostRoot →
      FiberData.isProvider ld = false →
      findCurrentUnmaskedContext s (buildChain (d :: ds) (Fiber.root ld)) =
        Except.error detachedMsg) := by
  have hd1 : d.tag ≠ TypeOfWork.HostRoot := by simp [htag]
  have hall : ∀ e ∈ d :: ds,
      e.tag ≠ TypeOfWork.HostRoot ∧ FiberData.isProvider e = false := by
    intro e he
    rcases List.mem_cons.mp he with heq | hmem
    · subst heq; exact ⟨hd1, hdp⟩
    · exact hds e hmem
  have hentry : ∀ t : Fiber,
      findCurrentUnmaskedContext s (buildChain (d :: ds) t) = findLoop s t := by
    intro t
    unfold findCurrentUnmaskedContext
    have hcond : ((buildChain (d :: ds) t).mounted &&
        decide ((buildChain (d :: ds) t).tag = TypeOfWork.ClassComponent)) =
          true := by
      simp [buildChain, Fiber.mounted, Fiber.tag, Fiber.data, hm, htag]
    rw [if_pos hcond]
    exact findLoop_buildChain s (d :: ds) t hall
  refine ⟨?_, ?_, ?_⟩
  · intro pd pf i hpd hi
    rw [hentry]
    have htagp : pd.tag = TypeOfWork.ClassComponent := by
      by_contra hne
      simp [FiberData.isProvider, hne] at hpd
    have hph : pd.tag ≠ TypeOfWork.HostRoot := by simp [htagp]
    simp [findLoop, visitNode, hph, hpd, hi]
  · intro j rd hr hj
    rw [hentry]
    simp [findLoop, visitNode, hr, hj]
  · intro ld hlt hlp
    rw [hentry]
    simp [findLoop, visitNode, hlt, hlp]

/-- Witness for C7: a consumer under a host node under a provider (itself
under a root) reads the provider's merged context; with no provider the
root's stored context; a detached chain is fatal. -/
theorem findCurrentUnmaskedContext_spec_witness :
    (wConsumerData.mounted = true ∧
      wConsumerData.tag = TypeOfWork.ClassComponent ∧
      FiberData.isProvider wConsumerData = false ∧
      FiberData.isProvider wProviderData = true ∧
      wProviderData.stateNode = some 1 ∧
      wRootData.tag = TypeOfWork.HostRoot ∧ wRootData.stateNode = some 3) ∧
    findCurrentUnmaskedContext wTreeState
        (buildChain [wConsumerData, wHostData]
          (Fiber.child wProviderData (Fiber.root wRootData))) =
      Except.ok ((getInst wTreeState.instances 1).memoizedMergedChildContext) ∧
    findCurrentUnmaskedContext wTreeState
        (buildChain [wConsumerData, wHostData] (Fiber.root wRootData)) =
      Except.ok (some ((getInst wTreeState.instances 3).context)) ∧
    findCurrentUnmaskedContext wTreeState
        (buildChain [wConsumerData, wHostData] (Fiber.root wHostData)) =
      Except.error detachedMsg :=
  ⟨⟨rfl, rfl, rfl, rfl, rfl, rfl, rfl⟩,
    (findCurrentUnmaskedContext_spec wTreeState wConsumerData [wHostData]
        rfl rfl rfl (by decide)).1 wProviderData (Fiber.root wRootData) 1
      rfl rfl,
    (findCurrentUnmaskedContext_spec wTreeState wConsumerData [wHostData]
        rfl rfl rfl (by decide)).2.1 3 wRootData rfl rfl,
    (findCurrentUnmaskedContext_spec wTreeState wConsumerData [wHostData]
        rfl rfl rfl (by decide)).2.2 wHostData (by decide) rfl⟩

/-- C8: `pushTopLevelContextObject` fails fatally exactly when a root-owned
frame is already live on the context register; otherwise it pushes one
frame onto each of the two registers. -/
theorem pushTopLevelContextObject_spec (s : EngineState) (f : Fiber)
    (c : JSObject) (d : Bool) :
    (hasRootFrame s.contextStackCursor = true →
      pushTopLevelContextObject s f c d = Except.error unexpectedContextMsg) ∧
    (hasRootFrame s.contextStackCursor = false →
      pushTopLevelContextObject s f c d =
        Except.ok { s with contextStackCursor := cursorPush s.contextStackCursor c f.tag, didPerformWorkStackCursor := cursorPush s.didPerformWorkStackCursor d f.tag }) := by
  constructor
  · intro h
    simp [pushTopLevelContextObject, h]
  · intro h
    simp [pushTopLevelContextObject, h]

/-- Witness for C8: the call fails on a register holding a root frame and
pushes one frame on each register starting from an empty one. -/
theorem pushTopLevelContextObject_spec_witness :
    (hasRootFrame wState.contextStackCursor = true ∧
      pushTopLevelContextObject wState wProvider ⟨30, []⟩ false =
        Except.error unexpectedContextMsg) ∧
    (hasRootFrame wBadState.contextStackCursor = false ∧
      pushTopLevelContextObject wBadState wProvider ⟨30, []⟩ false =
        Except.ok { wBadState with contextStackCursor := cursorPush wBadState.contextStackCursor ⟨30, []⟩ wProvider.tag, didPerformWorkStackCursor := cursorPush wBadState.didPerformWorkStackCursor false wProvider.tag }) :=
  ⟨⟨rfl,
      (pushTopLevelContextObject_spec wState wProvider ⟨30, []⟩ false).1 rfl⟩,
    ⟨rfl,
      (pushTopLevelContextObject_spec wBadState wProvider ⟨30, []⟩ false).2
        rfl⟩⟩
